import Mathlib

/-!
Verification of the WhatsApp outbound-messaging moderation pipeline of this
repository (`app/core/content_moderator.py`, `app/core/whatsapp_sender.py`,
`app/core/rule_engine.py`, `app/domains/whatsapp/api.py`).

The embedding is shallow: the Python functions are translated into pure Lean
functions.  External state (Redis keys, database tables) is an explicit `St`
record threaded through each call; writes to the database / Redis are recorded
as an ordered `List Effect`; a Python exception escaping a function is an
`Except.error`.  The two OpenAI calls and the WhatsApp HTTP call are modelled
as oracle parameters (`AIEnv`, and the `sendApi` fields), since they are
external collaborators.

A load-bearing fact of the source, reflected throughout: none of the three
pipeline modules imports `datetime`, yet
`ContentModerator._queue_admin_review`, `._alert_admin_critical`,
`._alert_admin_review_needed`, `WhatsAppSender._track_cost`,
`._alert_admin_send_failure` and `._alert_admin_high_cost` all evaluate
`datetime.utcnow()` / `datetime.now()` while building their payloads, before
performing any Redis write.  Each of those calls therefore raises `NameError`
at run time; this is modelled as `Except.error PyErr.nameError` with no
effects.
-/

/-- A Python exception escaping a modelled function: `NameError` from the
missing `datetime` import, or a transport/provider error raised by
`_send_whatsapp_api`. -/
inductive PyErr where
  | nameError
  | transport
deriving Repr, DecidableEq

/-- Minimal regular-expression syntax sufficient for the two pattern lists in
`ContentModerator` : character predicate, sequencing, alternation, Kleene
star, and the zero-width word boundary `\b`. -/
inductive RE where
  | eps
  | pred (p : Char → Bool)
  | seq (a b : RE)
  | alt (a b : RE)
  | star (a : RE)
  | wordB

/-- Python `str.lower()` (ASCII range, which covers every pattern letter and
all inputs considered here).  Core `String.toLower` is avoided because its
`String.mapAux` does not reduce in the kernel. -/
def strLower (s : String) : String := ⟨s.data.map Char.toLower⟩

/-- Python `\w` (ASCII): letters, digits, underscore. -/
def isWordChar (c : Char) : Bool := c.isAlphanum || c = '_'

/-- Python `\s`: space, tab, newline, carriage return, vertical tab, form feed. -/
def isPySpace (c : Char) : Bool :=
  c = ' ' || c = '\t' || c = '\n' || c = '\r' || c = '\x0b' || c = '\x0c'

/-- `\b` holds between `prev` (the character just before the cursor, `none` at
the start of the string) and the rest of the input iff exactly one side is a
word character. -/
def boundaryAt (prev : Option Char) (rest : List Char) : Bool :=
  let l := match prev with | none => false | some c => isWordChar c
  let r := match rest with | [] => false | c :: _ => isWordChar c
  l != r

/-- Fueled backtracking matcher in continuation-passing style.  `prev` is the
character immediately before the cursor (for `\b`), `k` the continuation run
on the remaining input after this fragment matched.  The fuel only bounds the
recursion depth; `reSearch` supplies enough of it for the fixed patterns
below. -/
def reMatch : Nat → RE → Option Char → List Char → (Option Char → List Char → Bool) → Bool
  | 0, _, _, _, _ => false
  | fuel + 1, re, prev, cs, k =>
    match re with
    | .eps => k prev cs
    | .pred p =>
      match cs with
      | [] => false
      | c :: cs2 => p c && k (some c) cs2
    | .seq a b => reMatch fuel a prev cs (fun p2 cs2 => reMatch fuel b p2 cs2 k)
    | .alt a b => reMatch fuel a prev cs k || reMatch fuel b prev cs k
    | .star a =>
      k prev cs || reMatch fuel a prev cs (fun p2 cs2 =>
        decide (cs2.length < cs.length) && reMatch fuel (.star a) p2 cs2 k)
    | .wordB => boundaryAt prev cs && k prev cs

/-- Try to match `r` at every start position, tracking the preceding
character; this is `re.search` (an unanchored match anywhere in the input). -/
def searchFrom (fuel : Nat) (r : RE) : Option Char → List Char → Bool
  | prev, [] => reMatch fuel r prev [] (fun _ _ => true)
  | prev, c :: rest =>
    reMatch fuel r prev (c :: rest) (fun _ _ => true) || searchFrom fuel r (some c) rest

/-- Fuel ample for the fixed patterns of `ContentModerator` (their nesting
depth is far below 64 per consumed character). -/
def searchFuel (cs : List Char) : Nat := 64 * (cs.length + 2)

/-- `re.search(pattern, s)` as a Boolean: does `r` match somewhere in `s`? -/
def reSearch (r : RE) (s : String) : Bool :=
  let cs := s.toList
  searchFrom (searchFuel cs) r none cs

/-- Literal character. -/
def RE.lit (c : Char) : RE := .pred (fun d => d = c)

/-- Literal string. -/
def RE.strLit (s : String) : RE := s.toList.foldr (fun c r => RE.seq (RE.lit c) r) RE.eps

/-- Alternation of a list (empty list never matches). -/
def RE.alts : List RE → RE
  | [] => .pred (fun _ => false)
  | [r] => r
  | r :: rs => .alt r (RE.alts rs)

/-- Exactly `n` repetitions: `a{n}`. -/
def RE.rep (a : RE) : Nat → RE
  | 0 => .eps
  | n + 1 => .seq a (RE.rep a n)

/-- At most `n` repetitions. -/
def RE.upto (a : RE) : Nat → RE
  | 0 => .eps
  | n + 1 => .alt .eps (.seq a (RE.upto a n))

/-- `a?` -/
def RE.opt (a : RE) : RE := .alt a .eps

/-- `a+` -/
def RE.plus (a : RE) : RE := .seq a (.star a)

/-- `\d` -/
def RE.digit : RE := .pred Char.isDigit

/-- `\s` -/
def RE.space : RE := .pred isPySpace

/-- `\S` -/
def RE.nonSpace : RE := .pred (fun c => !isPySpace c)

/-- `\b(w1|w2|...)\b` — a word-bounded alternation of literal words. -/
def RE.wordAlt (ws : List String) : RE :=
  .seq .wordB (.seq (RE.alts (ws.map RE.strLit)) .wordB)

/-- `[-.\s]?` — the optional separator of the SSN-like pattern. -/
def RE.ssnSep : RE := RE.opt (.pred (fun c => c = '-' || c = '.' || isPySpace c))

/-- `ContentModerator.HARMFUL_PATTERNS`, each rule paired with its source
regex text (the text is what `_check_harmful_patterns` interpolates into its
`"Pattern: ..."` return value). -/
def HARMFUL_PATTERNS : List (String × RE) :=
  [ ("\\b(kill|murder|harm|hurt|attack|violence)\\b",
      RE.wordAlt ["kill", "murder", "harm", "hurt", "attack", "violence"]),
    ("\\b(scam|fraud|cheat|steal|money\\s*transfer)\\b",
      .seq .wordB (.seq
        (RE.alts [RE.strLit "scam", RE.strLit "fraud", RE.strLit "cheat", RE.strLit "steal",
          .seq (RE.strLit "money") (.seq (.star RE.space) (RE.strLit "transfer"))])
        .wordB)),
    ("\\b(sex|porn|nude|explicit)\\b",
      RE.wordAlt ["sex", "porn", "nude", "explicit"]),
    ("\\b(drug|cocaine|heroin|marijuana)\\b",
      RE.wordAlt ["drug", "cocaine", "heroin", "marijuana"]),
    ("\\b(bomb|weapon|gun|knife)\\b",
      RE.wordAlt ["bomb", "weapon", "gun", "knife"]),
    ("\\b(hate|racist|terrorist)\\b",
      RE.wordAlt ["hate", "racist", "terrorist"]),
    ("(\\d\x7b16\x7d)",
      RE.rep RE.digit 16),
    ("(\\d\x7b3\x7d[-.\\s]?\\d\x7b2\x7d[-.\\s]?\\d\x7b4\x7d)",
      .seq (RE.rep RE.digit 3) (.seq RE.ssnSep
        (.seq (RE.rep RE.digit 2) (.seq RE.ssnSep (RE.rep RE.digit 4))))),
    ("(password|passwd|pwd)\\s*[:=]\\s*\\S+",
      .seq (RE.alts [RE.strLit "password", RE.strLit "passwd", RE.strLit "pwd"])
        (.seq (.star RE.space)
          (.seq (.pred (fun c => c = ':' || c = '='))
            (.seq (.star RE.space) (RE.plus RE.nonSpace))))) ]

/-- `ContentModerator.SUSPICIOUS_PATTERNS`, rule text paired with its
translation. -/
def SUSPICIOUS_PATTERNS : List (String × RE) :=
  [ ("\\b(meet|hotel|room|private|alone)\\b",
      RE.wordAlt ["meet", "hotel", "room", "private", "alone"]),
    ("\\b(money|cash|payment|bank|account)\\b",
      RE.wordAlt ["money", "cash", "payment", "bank", "account"]),
    ("\\b(urgent|emergency|help|please)\\b",
      RE.wordAlt ["urgent", "emergency", "help", "please"]),
    ("(whatsapp|telegram|signal|wickr)",
      RE.alts [RE.strLit "whatsapp", RE.strLit "telegram", RE.strLit "signal", RE.strLit "wickr"]),
    ("(\\+?\\d\x7b10,15\x7d)",
      .seq (RE.opt (RE.lit '+')) (.seq (RE.rep RE.digit 10) (RE.upto RE.digit 5))),
    ("([a-zA-Z0-9._%+-]+@[a-zA-Z0-9.-]+\\.[a-zA-Z]\x7b2,\x7d)",
      .seq (RE.plus (.pred (fun c => c.isAlphanum || c = '.' || c = '_' || c = '%' || c = '+' || c = '-')))
        (.seq (RE.lit '@')
          (.seq (RE.plus (.pred (fun c => c.isAlphanum || c = '.' || c = '-')))
            (.seq (RE.lit '.')
              (.seq (RE.rep (.pred Char.isAlpha) 2) (.star (.pred Char.isAlpha))))))) ]

/-- `ContentModerator._check_harmful_patterns`: lower-case the message, scan
the harmful rules in order, return `"Pattern: <regex>"` for the first match,
else `None`. -/
def check_harmful_patterns (message : String) : Option String :=
  let low := strLower message
  (HARMFUL_PATTERNS.find? (fun pr => reSearch pr.2 low)).map (fun pr => "Pattern: " ++ pr.1)

/-- The distinct suspicious rules (their regex texts) matching the message:
the `matched_patterns` list accumulated by `_check_suspicious_patterns`. -/
def suspiciousMatches (message : String) : List String :=
  let low := strLower message
  (SUSPICIOUS_PATTERNS.filter (fun pr => reSearch pr.2 low)).map (fun pr => pr.1)

/-- `ContentModerator._check_suspicious_patterns`: count distinct matching
rules; report only if 2 or more matched, else `None`. -/
def check_suspicious_patterns (message : String) : Option String :=
  let matched := suspiciousMatches message
  if matched.length ≥ 2 then
    some ("Multiple suspicious patterns: " ++ String.intercalate ", " (matched.take 3))
  else none

/-- Does `s` begin with `pat`? (`str.startswith`, over character lists so the
kernel can evaluate it.) -/
def listHasInit : List Char → List Char → Bool
  | [], _ => true
  | _ :: _, [] => false
  | p :: ps, c :: cs => p = c && listHasInit ps cs

/-- Python `s.startswith(pat)`. -/
def pyStartsWith (s pat : String) : Bool := listHasInit pat.data s.data

/-- Remove every occurrence of `pat` (nonempty) from the input; the fuel is
the input length, enough since each step consumes at least one character. -/
def removeAllAux (pat : List Char) : Nat → List Char → List Char
  | _, [] => []
  | 0, cs => cs
  | f + 1, c :: cs =>
    if listHasInit pat (c :: cs) then removeAllAux pat f ((c :: cs).drop pat.length)
    else c :: removeAllAux pat f cs

/-- Python `s.replace(pat, "")` for nonempty `pat`. -/
def pyReplace (s pat : String) : String := ⟨removeAllAux pat.data s.data.length s.data⟩

/-- Python `s.strip()`: drop leading and trailing whitespace. -/
def pyStrip (s : String) : String :=
  ⟨((s.data.dropWhile isPySpace).reverse.dropWhile isPySpace).reverse⟩

/-- Outcome of `openai.Moderation.create` when the call returns: the
`flagged` bit and the list of flagged category names. -/
structure ModerationOutcome where
  flagged : Bool
  categories : List String
deriving Repr, DecidableEq

/-- Oracles for the two OpenAI calls inside `_ai_moderate`.  `none` means the
call raised (timeout, provider error, malformed response — any exception);
`some` carries the normalized successful response. -/
structure AIEnv where
  moderationCall : String → Option ModerationOutcome
  gptCall : String → Option String

/-- The `{"safe": bool, "reason": str}` dictionary `_ai_moderate` returns. -/
structure SafeRes where
  safe : Bool
  reason : String
deriving Repr, DecidableEq

/-- `ContentModerator._ai_moderate`: categorical moderation call, then (when
clean) the GPT-4 contextual call; the enclosing `try` converts any exception
from either call into `{"safe": False, "reason": "AI moderation
unavailable"}`.  The function always returns a `SafeRes` — no exception
escapes it. -/
def ai_moderate (env : AIEnv) (message : String) : SafeRes :=
  match env.moderationCall message with
  | none => ⟨false, "AI moderation unavailable"⟩
  | some r =>
    if r.flagged then
      ⟨false, "AI flagged: " ++ String.intercalate ", " r.categories⟩
    else
      match env.gptCall message with
      | none => ⟨false, "AI moderation unavailable"⟩
      | some content =>
        let gpt_result := pyStrip content
        if pyStartsWith gpt_result "UNSAFE" then
          ⟨false, pyStrip (pyReplace gpt_result "UNSAFE")⟩
        else ⟨true, "AI approved"⟩

/-- Subscription tier enum (`rule_engine.UserTier`). -/
inductive UserTier where
  | free
  | premium
  | elite
deriving Repr, DecidableEq

/-- The columns of the `users` row the pipeline reads: `subscription_tier`
(`NULL` allowed) and `whatsapp` (`NULL` or empty treated as absent by
`_get_user_whatsapp`). -/
structure UserRow where
  subscription_tier : Option UserTier
  whatsapp : Option String
deriving Repr, DecidableEq

/-- One JSON item of the `whatsapp_admin_review_queue` Redis list. -/
structure ReviewItem where
  sender_id : Nat
  recipient_id : Nat
  message : String
  reason : String
  timestamp : String
deriving Repr, DecidableEq

/-- External state read and written by the pipeline: the `users` table, the
`blocked_user:{id}` Redis flags (recorded with the TTL in seconds they were
set with), the `violation_count:{id}` Redis counters (`none` = key absent),
and the admin review queue list (head first, as `lrange` returns it). -/
structure St where
  users : Nat → Option UserRow
  blockedTtl : Nat → Option Nat
  violationCount : Nat → Option Nat
  reviewQueue : List ReviewItem

/-- Set `blocked_user:{user}` via `setex` with the given TTL. -/
def St.setBlocked (st : St) (user ttl : Nat) : St :=
  { st with blockedTtl := fun n => if n = user then some ttl else st.blockedTtl n }

/-- Store the incremented `violation_count:{user}`. -/
def St.setViolationCount (st : St) (user c : Nat) : St :=
  { st with violationCount := fun n => if n = user then some c else st.violationCount n }

/-- Database / Redis / notification writes the pipeline can perform, in
program order.  `reviewEnqueue` and `adminAlertPush` are in the vocabulary
because `_queue_admin_review` and the alert helpers would perform them, but no
modelled run emits them: each of those functions evaluates `datetime` (not
imported) while building its payload and raises `NameError` first. -/
inductive Effect where
  | violationInsert (sender recipient : Nat) (msg reason severity : String)
  | blockFlagSet (user ttlSeconds : Nat)
  | messageLogInsert (sender recipient : Nat) (msg : String) (messageId : Option String) (status : String)
  | adminReviewInsert (sender recipient : Nat) (msg decision : String) (adminId : Nat)
  | reviewEnqueue (sender recipient : Nat) (msg reason : String)
  | adminAlertPush (subject severity : String)
  | apiSend (phone : Option String) (msg : String)
  | pushNotification (user : Nat) (title : String)
  | costIncrement (user : Nat)
deriving Repr, DecidableEq

/-- The `{"approved": bool, "reason": str, "requires_admin": bool}`
dictionary `moderate_message` returns. -/
structure Verdict where
  approved : Bool
  reason : String
  requires_admin : Bool
deriving Repr, DecidableEq

/-- `ContentModerator._is_blocked_user`: Redis `get blocked_user:{id}` equals
`"1"` — i.e. the flag is present (it is only ever set to `"1"`). -/
def is_blocked_user (st : St) (user_id : Nat) : Bool := (st.blockedTtl user_id).isSome

/-- `ContentModerator._alert_admin_critical`: the alert dictionary contains
`str(datetime.utcnow())`, and `datetime` is not imported in
`content_moderator.py`, so the function raises `NameError` before its
`lpush`. -/
def alert_admin_critical (st : St) : Except PyErr Unit × St × List Effect :=
  (.error .nameError, st, [])

/-- `ContentModerator._queue_admin_review`: `review_data` contains
`str(datetime.utcnow())` with `datetime` unbound, so it raises `NameError`
before its `lpush` — no `AdminReviewItem` is ever enqueued. -/
def queue_admin_review (st : St) : Except PyErr Unit × St × List Effect :=
  (.error .nameError, st, [])

/-- `ContentModerator._log_violation`: insert one `content_violations` row,
increment `violation_count:{sender}`; at 3 or more, set the 7-day block flag
and then call `_alert_admin_critical`, which raises `NameError`. -/
def log_violation (sender_id recipient_id : Nat) (message reason severity : String) (st : St) :
    Except PyErr Unit × St × List Effect :=
  let e1 := Effect.violationInsert sender_id recipient_id message reason severity
  let count := (match st.violationCount sender_id with | some n => n | none => 0) + 1
  let st1 := st.setViolationCount sender_id count
  if count ≥ 3 then
    let st2 := st1.setBlocked sender_id (86400 * 7)
    let (r, st3, es) := alert_admin_critical st2
    (r, st3, [e1, .blockFlagSet sender_id (86400 * 7)] ++ es)
  else
    (.ok (), st1, [e1])

/-- `ContentModerator._log_approved`: insert one `whatsapp_message_log` row
with status `'approved'`. -/
def log_approved (sender_id recipient_id : Nat) (message : String) (st : St) :
    Except PyErr Unit × St × List Effect :=
  (.ok (), st, [Effect.messageLogInsert sender_id recipient_id message none "approved"])

/-- Step 3 of `moderate_message` (the blanket AI check) followed by the
approved epilogue: with AI configured, an unsafe verdict logs a violation and
attempts to queue for review (raising `NameError` in `_queue_admin_review`);
otherwise the message is logged approved and the approved verdict returned. -/
def ai_check_stage (ai : Option AIEnv) (sender_id recipient_id : Nat) (message : String) (st : St) :
    Except PyErr Verdict × St × List Effect :=
  match ai with
  | some env =>
    let res := ai_moderate env message
    if res.safe then
      let (_, st1, es) := log_approved sender_id recipient_id message st
      (.ok ⟨true, "Message approved", false⟩, st1, es)
    else
      let (r, st1, es) := log_violation sender_id recipient_id message res.reason "ai_flagged" st
      match r with
      | .error e => (.error e, st1, es)
      | .ok _ =>
        let (r2, st2, es2) := queue_admin_review st1
        match r2 with
        | .error e => (.error e, st2, es ++ es2)
        | .ok _ => (.ok ⟨false, "Message requires admin approval", true⟩, st2, es ++ es2)
  | none =>
    let (_, st1, es) := log_approved sender_id recipient_id message st
    (.ok ⟨true, "Message approved", false⟩, st1, es)

/-- `ContentModerator.moderate_message`: block check, harmful pattern scan
(instant block path), suspicious pattern scan with AI escalation or manual
review, blanket AI check, approval.  `ai = none` models
`openai_enabled = False`. -/
def moderate_message (ai : Option AIEnv) (sender_id recipient_id : Nat) (message : String) (st : St) :
    Except PyErr Verdict × St × List Effect :=
  if is_blocked_user st sender_id then
    (.ok ⟨false, "User blocked for policy violations", false⟩, st, [])
  else
    match check_harmful_patterns message with
    | some harmful_match =>
      let (r, st1, es) := log_violation sender_id recipient_id message harmful_match "harmful" st
      match r with
      | .error e => (.error e, st1, es)
      | .ok _ =>
        let (r2, st2, es2) := alert_admin_critical st1
        match r2 with
        | .error e => (.error e, st2, es ++ es2)
        | .ok _ =>
          (.ok ⟨false, "Harmful content detected: " ++ harmful_match, false⟩, st2, es ++ es2)
    | none =>
      match check_suspicious_patterns message with
      | some _suspicious_match =>
        match ai with
        | some env =>
          let res := ai_moderate env message
          if res.safe then
            ai_check_stage ai sender_id recipient_id message st
          else
            let (r, st1, es) := log_violation sender_id recipient_id message res.reason "ai_flagged" st
            match r with
            | .error e => (.error e, st1, es)
            | .ok _ =>
              let (r2, st2, es2) := queue_admin_review st1
              match r2 with
              | .error e => (.error e, st2, es ++ es2)
              | .ok _ => (.ok ⟨false, "Message requires admin approval", true⟩, st2, es ++ es2)
        | none =>
          let (r2, st2, es2) := queue_admin_review st
          match r2 with
          | .error e => (.error e, st2, es2)
          | .ok _ => (.ok ⟨false, "Message requires admin approval", true⟩, st2, es2)
      | none => ai_check_stage ai sender_id recipient_id message st

/-- An empty external state with one configurable user row, for concrete
witnesses: no blocks, no counters, empty queue. -/
def mkSt (users : Nat → Option UserRow) : St :=
  { users := users, blockedTtl := fun _ => none, violationCount := fun _ => none,
    reviewQueue := [] }

/-- `RuleEngine._get_user_tier`, reduced to its data content: a missing user
row yields tier `free`; otherwise `subscription_tier`, defaulting to `free`
when the column is `NULL`.  (The 1-hour Redis tier cache stores exactly the
value this computation produced, so it is omitted.) -/
def get_user_tier (st : St) (user_id : Nat) : UserTier :=
  match st.users user_id with
  | none => .free
  | some u => match u.subscription_tier with | none => .free | some t => t

/-- `WhatsAppSender._get_user_whatsapp`: `SELECT whatsapp FROM users`;
`row[0] if row and row[0] else None`, i.e. a missing row, a `NULL` or an
empty (falsy) value all yield `None` — the `UserRow.whatsapp` field already
holds `none` in those cases. -/
def get_user_whatsapp (st : St) (user_id : Nat) : Option String :=
  match st.users user_id with
  | none => none
  | some u => u.whatsapp

/-- `WhatsAppSender._track_cost`: its first statement builds
`month_key = f"whatsapp_cost:{user_id}:{datetime.now().strftime('%Y%m')}"`,
and `datetime` is not imported in `whatsapp_sender.py`, so the function
raises `NameError` before `incrbyfloat` — the cost ledger is never
incremented and the high-cost alert (threshold 100) is unreachable. -/
def track_cost (st : St) : Except PyErr Unit × St × List Effect :=
  (.error .nameError, st, [])

/-- `WhatsAppSender._alert_admin_send_failure`: the alert dictionary contains
`str(datetime.utcnow())` with `datetime` unbound in `whatsapp_sender.py`, so
it raises `NameError` before its `lpush`. -/
def alert_admin_send_failure (st : St) : Except PyErr Unit × St × List Effect :=
  (.error .nameError, st, [])

/-- `WhatsAppSender._log_sent_message`: insert one `whatsapp_message_log` row
with status `'sent'` and the provider message id. -/
def log_sent_message (sender_id recipient_id : Nat) (message : String)
    (message_id : Option String) (st : St) : Except PyErr Unit × St × List Effect :=
  (.ok (), st, [Effect.messageLogInsert sender_id recipient_id message message_id "sent"])

/-- Configuration and transport oracle of `WhatsAppSender`:
`whatsappEnabled` is `bool(settings.WHATSAPP_ACCESS_TOKEN)`; `sendApi` models
`_send_whatsapp_api` on a phone value (the review endpoint can pass `None`)
and a message, returning the provider message id, or `none` when the HTTP
call raises. -/
structure SendEnv where
  whatsappEnabled : Bool
  sendApi : Option String → String → Option String

/-- Result statuses of `WhatsAppSender.send_message`. -/
inductive SendOutcome where
  | forbidden
  | noWhatsapp
  | pendingReview
  | blockedMsg
  | disabled
  | sent (message_id : Option String)
  | failed
deriving Repr, DecidableEq

/-- The type of `content_moderator.moderate_message` as `send_message` calls
it; `send_message_with` is parametric in it so that theorems can state that
the moderator is not consulted on the early-return paths. -/
def Moderator : Type :=
  Nat → Nat → String → St → Except PyErr Verdict × St × List Effect

/-- `WhatsAppSender.send_message`, parametric in the moderator: tier gate,
recipient-phone lookup, moderation, then the provider call with sent-log and
cost tracking under a `try` whose handler calls
`_alert_admin_send_failure`. -/
def send_message_with (moderator : Moderator) (env : SendEnv) (sender_id recipient_id : Nat)
    (message : String) (st : St) : Except PyErr SendOutcome × St × List Effect :=
  let sender_tier := get_user_tier st sender_id
  if !(sender_tier = UserTier.premium || sender_tier = UserTier.elite) then
    (.ok .forbidden, st, [])
  else
    match get_user_whatsapp st recipient_id with
    | none => (.ok .noWhatsapp, st, [])
    | some recipient_phone =>
      let (mr, st1, es1) := moderator sender_id recipient_id message st
      match mr with
      | .error e => (.error e, st1, es1)
      | .ok v =>
        if !v.approved then
          if v.requires_admin then (.ok .pendingReview, st1, es1)
          else (.ok .blockedMsg, st1, es1)
        else if !env.whatsappEnabled then (.ok .disabled, st1, es1)
        else
          match env.sendApi (some recipient_phone) message with
          | none =>
            let (r2, st2, es2) := alert_admin_send_failure st1
            match r2 with
            | .error e => (.error e, st2, es1 ++ es2)
            | .ok _ => (.ok .failed, st2, es1 ++ es2)
          | some mid =>
            let es2 := [Effect.apiSend (some recipient_phone) message]
            let (_, st2, es3) := log_sent_message sender_id recipient_id message (some mid) st1
            let (r4, st3, es4) := track_cost st2
            match r4 with
            | .error _ =>
              let (r5, st4, es5) := alert_admin_send_failure st3
              match r5 with
              | .error e => (.error e, st4, es1 ++ es2 ++ es3 ++ es4 ++ es5)
              | .ok _ => (.ok .failed, st4, es1 ++ es2 ++ es3 ++ es4 ++ es5)
            | .ok _ => (.ok (.sent (some mid)), st3, es1 ++ es2 ++ es3 ++ es4)

/-- `WhatsAppSender.send_message` with the real moderator plugged in. -/
def send_message (ai : Option AIEnv) (env : SendEnv) (sender_id recipient_id : Nat)
    (message : String) (st : St) : Except PyErr SendOutcome × St × List Effect :=
  send_message_with (moderate_message ai) env sender_id recipient_id message st

/-- The enumeration loop of `review_message`: the first (only) index `i` of
the queue page with `str(i) == review_id`, and its item. -/
def findIndexed (review_id : String) : Nat → List ReviewItem → Option ReviewItem
  | _, [] => none
  | i, x :: xs => if toString i = review_id then some x else findIndexed review_id (i + 1) xs

/-- Redis `lrem key 1 value`: remove the first occurrence of `value`. -/
def lremOne : List ReviewItem → ReviewItem → List ReviewItem
  | [], _ => []
  | x :: xs, v => if x = v then xs else x :: lremOne xs v

/-- Result of the `POST /whatsapp/admin/review` endpoint: the 404 when no
index matches, or the success payloads. -/
inductive ReviewOutcome where
  | notFound
  | approvedAndSent (message_id : Option String)
  | rejected
deriving Repr, DecidableEq

/-- `review_message` of `app/domains/whatsapp/api.py`: scan the queue for the
positional id, `lrem` the found item, 404 otherwise; insert the
`whatsapp_admin_reviews` decision row; on `"approve"` call
`_send_whatsapp_api` with the recipient's phone (possibly `None`) and notify
the sender of approval, on anything else notify the sender of rejection.  No
`whatsapp_message_log` row is written on this path. -/
def review_message (env : SendEnv) (review_id decision : String) (admin_id : Nat) (st : St) :
    Except PyErr ReviewOutcome × St × List Effect :=
  match findIndexed review_id 0 st.reviewQueue with
  | none => (.ok .notFound, st, [])
  | some item =>
    let st1 := { st with reviewQueue := lremOne st.reviewQueue item }
    let e1 := Effect.adminReviewInsert item.sender_id item.recipient_id item.message decision admin_id
    if decision = "approve" then
      match env.sendApi (get_user_whatsapp st1 item.recipient_id) item.message with
      | none => (.error .transport, st1, [e1])
      | some mid =>
        (.ok (.approvedAndSent (some mid)), st1,
          [e1, .apiSend (get_user_whatsapp st1 item.recipient_id) item.message,
           .pushNotification item.sender_id "Message Approved"])
    else
      (.ok .rejected, st1, [e1, .pushNotification item.sender_id "Message Rejected"])

/-- Audit artifacts in the sense of the spec: a ViolationRecord, an
AdminReviewItem, or a MessageLog entry. -/
def isAuditArtifact : Effect → Bool
  | .violationInsert .. => true
  | .reviewEnqueue .. => true
  | .messageLogInsert .. => true
  | _ => false

/-- `whatsapp_message_log` inserts. -/
def isMessageLog : Effect → Bool
  | .messageLogInsert .. => true
  | _ => false

/-- Push notifications to a user. -/
def isPushNote : Effect → Bool
  | .pushNotification .. => true
  | _ => false

/-- `whatsapp_admin_reviews` decision rows. -/
def isAdminReviewRow : Effect → Bool
  | .adminReviewInsert .. => true
  | _ => false

/-- Cost-ledger increments (`incrbyfloat` on `whatsapp_cost:{user}:{month}`). -/
def isCostIncrement : Effect → Bool
  | .costIncrement .. => true
  | _ => false

/-- An AI environment whose categorical moderation call always raises. -/
def failAI : AIEnv := ⟨fun _ => none, fun _ => some "SAFE"⟩

/-- A transport environment: WhatsApp configured, provider call succeeds with
id `"mid"`. -/
def okSendEnv : SendEnv := ⟨true, fun _ _ => some "mid"⟩

/-- State with sender 1 already auto-blocked (7-day flag present). -/
def blockedSt : St :=
  { mkSt (fun _ => none) with blockedTtl := fun n => if n = 1 then some 604800 else none }

/-- State with sender 1 at two strikes (`violation_count:1 = 2`). -/
def strikeSt : St :=
  { mkSt (fun _ => none) with violationCount := fun n => if n = 1 then some 2 else none }

/-- A queued review item from sender 1 to recipient 2. -/
def itemA : ReviewItem := ⟨1, 2, "m1", "r1", "t1"⟩

/-- A second queued review item from sender 3 to recipient 4. -/
def itemB : ReviewItem := ⟨3, 4, "m2", "r2", "t2"⟩

/-- Recipients 2 and 4 have WhatsApp numbers on record. -/
def phoneUsers : Nat → Option UserRow :=
  fun u => if u = 2 || u = 4 then some ⟨some .premium, some "p"⟩ else none

/-- Queue holding `itemA` then `itemB`. -/
def twoItemSt : St :=
  { mkSt phoneUsers with reviewQueue := [itemA, itemB] }

/-- Queue holding only `itemA`. -/
def oneItemSt : St :=
  { mkSt phoneUsers with reviewQueue := [itemA] }

/-- Premium sender 1, recipient 2 with a WhatsApp number. -/
def premiumSt : St :=
  mkSt fun u =>
    if u = 1 then some ⟨some .premium, some "p1"⟩
    else if u = 2 then some ⟨none, some "p2"⟩ else none

/-- Premium sender 1, recipient 2 without any WhatsApp number on record. -/
def noPhoneSt : St :=
  mkSt fun u => if u = 1 then some ⟨some .premium, some "p1"⟩ else none

theorem setViolationCount_reviewQueue (st : St) (u c : Nat) :
    (st.setViolationCount u c).reviewQueue = st.reviewQueue := rfl

theorem setBlocked_reviewQueue (st : St) (u t : Nat) :
    (st.setBlocked u t).reviewQueue = st.reviewQueue := rfl

theorem get_user_whatsapp_setQueue (st : St) (q : List ReviewItem) (u : Nat) :
    get_user_whatsapp { st with reviewQueue := q } u = get_user_whatsapp st u := rfl

theorem log_violation_queue (s r : Nat) (m rsn sev : String) (st : St) :
    (log_violation s r m rsn sev st).2.1.reviewQueue = st.reviewQueue := by
  unfold log_violation alert_admin_critical
  dsimp only
  split <;> rfl

theorem log_violation_effects (s r : Nat) (m rsn sev : String) (st : St) :
    (log_violation s r m rsn sev st).2.2 = [.violationInsert s r m rsn sev] ∨
    (log_violation s r m rsn sev st).2.2
      = [.violationInsert s r m rsn sev, .blockFlagSet s 604800] := by
  unfold log_violation alert_admin_critical
  dsimp only
  split
  · right; rfl
  · left; rfl

theorem ai_check_stage_queue (ai : Option AIEnv) (s r : Nat) (m : String) (st : St) :
    (ai_check_stage ai s r m st).2.1.reviewQueue = st.reviewQueue := by
  cases ai with
  | none => rfl
  | some env =>
    unfold ai_check_stage
    dsimp only
    by_cases hs : (ai_moderate env m).safe = true
    · rw [if_pos hs]; rfl
    · rw [if_neg hs]
      obtain ⟨⟨r1, st1, es1⟩, hlv⟩ :
          ∃ t, log_violation s r m (ai_moderate env m).reason "ai_flagged" st = t := ⟨_, rfl⟩
      have hq := log_violation_queue s r m (ai_moderate env m).reason "ai_flagged" st
      rw [hlv] at hq
      rw [hlv]
      cases r1 with
      | error e => exact hq
      | ok u => exact hq

theorem ai_check_stage_no_enqueue (ai : Option AIEnv) (s r : Nat) (m : String) (st : St)
    (a b : Nat) (c d : String) :
    Effect.reviewEnqueue a b c d ∉ (ai_check_stage ai s r m st).2.2 := by
  cases ai with
  | none => simp [ai_check_stage, log_approved]
  | some env =>
    unfold ai_check_stage
    dsimp only
    by_cases hs : (ai_moderate env m).safe = true
    · rw [if_pos hs]; simp [log_approved]
    · rw [if_neg hs]
      obtain ⟨⟨r1, st1, es1⟩, hlv⟩ :
          ∃ t, log_violation s r m (ai_moderate env m).reason "ai_flagged" st = t := ⟨_, rfl⟩
      have hes := log_violation_effects s r m (ai_moderate env m).reason "ai_flagged" st
      rw [hlv] at hes
      rw [hlv]
      cases r1 with
      | error e => rcases hes with h | h <;> dsimp only at h <;> simp [h]
      | ok u =>
        unfold queue_admin_review
        rcases hes with h | h <;> dsimp only at h <;> simp [h]

theorem ai_check_stage_ok (ai : Option AIEnv) (s r : Nat) (m : String) (st : St)
    (v : Verdict) (st2 : St) (es : List Effect)
    (h : ai_check_stage ai s r m st = (.ok v, st2, es)) :
    v = ⟨true, "Message approved", false⟩ ∧ st2 = st ∧
      es = [.messageLogInsert s r m none "approved"] := by
  cases ai with
  | none =>
    unfold ai_check_stage log_approved at h
    simp only [Prod.mk.injEq, Except.ok.injEq] at h
    exact ⟨h.1.symm, h.2.1.symm, h.2.2.symm⟩
  | some env =>
    unfold ai_check_stage at h
    dsimp only at h
    by_cases hs : (ai_moderate env m).safe = true
    · rw [if_pos hs] at h
      unfold log_approved at h
      simp only [Prod.mk.injEq, Except.ok.injEq] at h
      exact ⟨h.1.symm, h.2.1.symm, h.2.2.symm⟩
    · rw [if_neg hs] at h
      obtain ⟨⟨r1, st1, es1⟩, hlv⟩ :
          ∃ t, log_violation s r m (ai_moderate env m).reason "ai_flagged" st = t := ⟨_, rfl⟩
      rw [hlv] at h
      cases r1 with
      | error e => simp at h
      | ok u =>
        unfold queue_admin_review at h
        simp at h

theorem moderate_message_queue (ai : Option AIEnv) (s r : Nat) (m : String) (st : St) :
    (moderate_message ai s r m st).2.1.reviewQueue = st.reviewQueue := by
  unfold moderate_message
  by_cases hb : is_blocked_user st s = true
  · rw [if_pos hb]
  · rw [if_neg hb]
    cases hh : check_harmful_patterns m with
    | some pat =>
      dsimp only
      obtain ⟨⟨r1, st1, es1⟩, hlv⟩ : ∃ t, log_violation s r m pat "harmful" st = t := ⟨_, rfl⟩
      have hq := log_violation_queue s r m pat "harmful" st
      rw [hlv] at hq
      rw [hlv]
      cases r1 with
      | error e => exact hq
      | ok u => exact hq
    | none =>
      cases hsusp : check_suspicious_patterns m with
      | some sm =>
        dsimp only
        cases ai with
        | none => rfl
        | some env =>
          dsimp only
          by_cases hs : (ai_moderate env m).safe = true
          · rw [if_pos hs]
            exact ai_check_stage_queue (some env) s r m st
          · rw [if_neg hs]
            obtain ⟨⟨r1, st1, es1⟩, hlv⟩ :
                ∃ t, log_violation s r m (ai_moderate env m).reason "ai_flagged" st = t := ⟨_, rfl⟩
            have hq := log_violation_queue s r m (ai_moderate env m).reason "ai_flagged" st
            rw [hlv] at hq
            rw [hlv]
            cases r1 with
            | error e => exact hq
            | ok u => exact hq
      | none => exact ai_check_stage_queue ai s r m st

theorem moderate_message_no_enqueue (ai : Option AIEnv) (s r : Nat) (m : String) (st : St)
    (a b : Nat) (c d : String) :
    Effect.reviewEnqueue a b c d ∉ (moderate_message ai s r m st).2.2 := by
  unfold moderate_message
  by_cases hb : is_blocked_user st s = true
  · rw [if_pos hb]; simp
  · rw [if_neg hb]
    cases hh : check_harmful_patterns m with
    | some pat =>
      dsimp only
      obtain ⟨⟨r1, st1, es1⟩, hlv⟩ : ∃ t, log_violation s r m pat "harmful" st = t := ⟨_, rfl⟩
      have hes := log_violation_effects s r m pat "harmful" st
      rw [hlv] at hes
      rw [hlv]
      cases r1 with
      | error e => rcases hes with h | h <;> dsimp only at h <;> simp [h]
      | ok u =>
        unfold alert_admin_critical
        rcases hes with h | h <;> dsimp only at h <;> simp [h]
    | none =>
      cases hsusp : check_suspicious_patterns m with
      | some sm =>
        dsimp only
        cases ai with
        | none => simp [queue_admin_review]
        | some env =>
          dsimp only
          by_cases hs : (ai_moderate env m).safe = true
          · rw [if_pos hs]
            exact ai_check_stage_no_enqueue (some env) s r m st a b c d
          · rw [if_neg hs]
            obtain ⟨⟨r1, st1, es1⟩, hlv⟩ :
                ∃ t, log_violation s r m (ai_moderate env m).reason "ai_flagged" st = t := ⟨_, rfl⟩
            have hes := log_violation_effects s r m (ai_moderate env m).reason "ai_flagged" st
            rw [hlv] at hes
            rw [hlv]
            cases r1 with
            | error e => rcases hes with h | h <;> dsimp only at h <;> simp [h]
            | ok u =>
              unfold queue_admin_review
              rcases hes with h | h <;> dsimp only at h <;> simp [h]
      | none => exact ai_check_stage_no_enqueue ai s r m st a b c d

theorem moderate_message_ok (ai : Option AIEnv) (s r : Nat) (m : String) (st : St)
    (v : Verdict) (st2 : St) (es : List Effect)
    (h : moderate_message ai s r m st = (.ok v, st2, es)) :
    (v = ⟨false, "User blocked for policy violations", false⟩ ∧ st2 = st ∧ es = []) ∨
    (v = ⟨true, "Message approved", false⟩ ∧ st2 = st ∧
      es = [.messageLogInsert s r m none "approved"]) := by
  unfold moderate_message at h
  by_cases hb : is_blocked_user st s = true
  · rw [if_pos hb] at h
    simp only [Prod.mk.injEq, Except.ok.injEq] at h
    exact Or.inl ⟨h.1.symm, h.2.1.symm, h.2.2.symm⟩
  · rw [if_neg hb] at h
    cases hh : check_harmful_patterns m with
    | some pat =>
      rw [hh] at h
      dsimp only at h
      obtain ⟨⟨r1, st1, es1⟩, hlv⟩ : ∃ t, log_violation s r m pat "harmful" st = t := ⟨_, rfl⟩
      rw [hlv] at h
      cases r1 with
      | error e => simp at h
      | ok u =>
        unfold alert_admin_critical at h
        simp at h
    | none =>
      rw [hh] at h
      cases hsusp : check_suspicious_patterns m with
      | some sm =>
        rw [hsusp] at h
        dsimp only at h
        cases ai with
        | none =>
          unfold queue_admin_review at h
          simp at h
        | some env =>
          dsimp only at h
          by_cases hs : (ai_moderate env m).safe = true
          · rw [if_pos hs] at h
            exact Or.inr (ai_check_stage_ok (some env) s r m st v st2 es h)
          · rw [if_neg hs] at h
            obtain ⟨⟨r1, st1, es1⟩, hlv⟩ :
                ∃ t, log_violation s r m (ai_moderate env m).reason "ai_flagged" st = t := ⟨_, rfl⟩
            rw [hlv] at h
            cases r1 with
            | error e => simp at h
            | ok u =>
              unfold queue_admin_review at h
              simp at h
      | none =>
        rw [hsusp] at h
        exact Or.inr (ai_check_stage_ok ai s r m st v st2 es h)

theorem ai_check_stage_flagged_no_ok (env : AIEnv) (s r : Nat) (m : String) (st : St)
    (hflagged : (ai_moderate env m).safe = false)
    (v : Verdict) (st2 : St) (es : List Effect) :
    ai_check_stage (some env) s r m st ≠ (.ok v, st2, es) := by
  intro h
  unfold ai_check_stage at h
  dsimp only at h
  rw [if_neg (by simp [hflagged])] at h
  obtain ⟨⟨r1, st1, es1⟩, hlv⟩ :
      ∃ t, log_violation s r m (ai_moderate env m).reason "ai_flagged" st = t := ⟨_, rfl⟩
  rw [hlv] at h
  cases r1 with
  | error e => simp at h
  | ok u =>
    unfold queue_admin_review at h
    simp at h

theorem moderate_message_ok_of_flagged (env : AIEnv) (s r : Nat) (m : String) (st : St)
    (hflagged : (ai_moderate env m).safe = false)
    (v : Verdict) (st2 : St) (es : List Effect)
    (h : moderate_message (some env) s r m st = (.ok v, st2, es)) :
    v = ⟨false, "User blocked for policy violations", false⟩ ∧ st2 = st ∧ es = [] := by
  unfold moderate_message at h
  by_cases hb : is_blocked_user st s = true
  · rw [if_pos hb] at h
    simp only [Prod.mk.injEq, Except.ok.injEq] at h
    exact ⟨h.1.symm, h.2.1.symm, h.2.2.symm⟩
  · rw [if_neg hb] at h
    cases hh : check_harmful_patterns m with
    | some pat =>
      rw [hh] at h
      dsimp only at h
      obtain ⟨⟨r1, st1, es1⟩, hlv⟩ : ∃ t, log_violation s r m pat "harmful" st = t := ⟨_, rfl⟩
      rw [hlv] at h
      cases r1 with
      | error e => simp at h
      | ok u =>
        unfold alert_admin_critical at h
        simp at h
    | none =>
      rw [hh] at h
      cases hsusp : check_suspicious_patterns m with
      | some sm =>
        rw [hsusp] at h
        dsimp only at h
        rw [if_neg (by simp [hflagged])] at h
        obtain ⟨⟨r1, st1, es1⟩, hlv⟩ :
            ∃ t, log_violation s r m (ai_moderate env m).reason "ai_flagged" st = t := ⟨_, rfl⟩
        rw [hlv] at h
        cases r1 with
        | error e => simp at h
        | ok u =>
          unfold queue_admin_review at h
          simp at h
      | none =>
        rw [hsusp] at h
        exact absurd h (ai_check_stage_flagged_no_ok env s r m st hflagged v st2 es)

/-- C2: if either AI call inside `classify` (`_ai_moderate`) raises any
exception — the categorical moderation call, or the GPT contextual call after
a clean categorical pass — then `_ai_moderate` returns safe=false with reason
"AI moderation unavailable" (it returns normally, no exception propagates),
and consequently no `moderate_message` call under that AI environment can
return an approved verdict. -/
theorem C2_ai_failure_fail_closed (env : AIEnv) (message : String)
    (h : env.moderationCall message = none ∨
      ∃ res, env.moderationCall message = some res ∧ res.flagged = false ∧
        env.gptCall message = none) :
    ai_moderate env message = ⟨false, "AI moderation unavailable"⟩ ∧
    ∀ sender recipient st v st2 es,
      moderate_message (some env) sender recipient message st = (.ok v, st2, es) →
      v.approved = false := by
  have hai : ai_moderate env message = ⟨false, "AI moderation unavailable"⟩ := by
    rcases h with h1 | ⟨res, hr, hf, hg⟩
    · unfold ai_moderate
      rw [h1]
    · unfold ai_moderate
      rw [hr]
      simp [hf, hg]
  refine ⟨hai, ?_⟩
  intro sender recipient st v st2 es hmod
  have hv := moderate_message_ok_of_flagged env sender recipient message st
    (by rw [hai]) v st2 es hmod
  rw [hv.1]

/-- C2 witness: an AI environment whose categorical call raises yields the
fail-closed result on a concrete message. -/
theorem C2_witness :
    (failAI.moderationCall "hi" = none ∨
      ∃ res, failAI.moderationCall "hi" = some res ∧ res.flagged = false ∧
        failAI.gptCall "hi" = none) ∧
    ai_moderate failAI "hi" = ⟨false, "AI moderation unavailable"⟩ :=
  ⟨Or.inl rfl, (C2_ai_failure_fail_closed failAI "hi" (Or.inl rfl)).1⟩

/-- C5: a sender whose resolved tier is `free` (including a sender with no
user row) is rejected with the forbidden outcome before any content
inspection: the result holds for an arbitrary moderator function, with the
state unchanged and no effects, so neither `moderate_message` nor the pattern
scans can have been consulted. -/
theorem C5_free_tier_rejected_before_moderation (moderator : Moderator) (env : SendEnv)
    (sender recipient : Nat) (message : String) (st : St)
    (h : get_user_tier st sender = UserTier.free) :
    send_message_with moderator env sender recipient message st = (.ok .forbidden, st, []) := by
  unfold send_message_with
  rw [h]
  rfl

/-- C5 witness: a sender with no user row resolves to tier `free` and is
rejected on a concrete harmful message without any moderation effect. -/
theorem C5_witness :
    get_user_tier (mkSt fun _ => none) 1 = UserTier.free ∧
    send_message_with (moderate_message none) okSendEnv 1 2 "kill" (mkSt fun _ => none)
      = (.ok .forbidden, mkSt fun _ => none, []) :=
  ⟨rfl, C5_free_tier_rejected_before_moderation (moderate_message none) okSendEnv 1 2 "kill"
    (mkSt fun _ => none) rfl⟩

/-- C6: a message matching at most one distinct suspicious rule never trips
the stage-3 escalation guard (`_check_suspicious_patterns` returns `None`,
since it requires at least 2 distinct rule matches), and no run of
`moderate_message` on such a message enqueues an `AdminReviewItem` or touches
the review queue. -/
theorem C6_single_suspicious_rule_no_escalation (message : String)
    (h : (suspiciousMatches message).length ≤ 1) :
    check_suspicious_patterns message = none ∧
    ∀ ai sender recipient st a b c d,
      Effect.reviewEnqueue a b c d ∉ (moderate_message ai sender recipient message st).2.2 ∧
      (moderate_message ai sender recipient message st).2.1.reviewQueue = st.reviewQueue := by
  constructor
  · unfold check_suspicious_patterns
    dsimp only
    rw [if_neg (by omega)]
  · intro ai sender recipient st a b c d
    exact ⟨moderate_message_no_enqueue ai sender recipient message st a b c d,
      moderate_message_queue ai sender recipient message st⟩

/-- C6 witness: "hello" matches no suspicious rule; the escalation guard is
not met. -/
theorem C6_witness :
    (suspiciousMatches "hello").length ≤ 1 ∧ check_suspicious_patterns "hello" = none :=
  ⟨by decide, (C6_single_suspicious_rule_no_escalation "hello" (by decide)).1⟩

/-- C10: for a premium or elite sender, a recipient without a WhatsApp number
short-circuits `send_message` to the `no_whatsapp` outcome before moderation:
the result holds for an arbitrary moderator, with the state unchanged and no
effects, so no ViolationRecord, strike or alert can result — even for harmful
message text. -/
theorem C10_missing_recipient_phone_short_circuits (moderator : Moderator) (env : SendEnv)
    (sender recipient : Nat) (message : String) (st : St)
    (htier : get_user_tier st sender = UserTier.premium ∨
      get_user_tier st sender = UserTier.elite)
    (hphone : get_user_whatsapp st recipient = none) :
    send_message_with moderator env sender recipient message st = (.ok .noWhatsapp, st, []) := by
  unfold send_message_with
  rcases htier with h | h <;> rw [h] <;> simp [hphone]

/-- C10 witness: premium sender 1, recipient 2 without a record, harmful
message text — still the `no_whatsapp` outcome with no effects. -/
theorem C10_witness :
    (get_user_tier noPhoneSt 1 = UserTier.premium ∨ get_user_tier noPhoneSt 1 = UserTier.elite) ∧
    get_user_whatsapp noPhoneSt 2 = none ∧
    send_message_with (moderate_message none) okSendEnv 1 2 "kill" noPhoneSt
      = (.ok .noWhatsapp, noPhoneSt, []) :=
  ⟨Or.inl rfl, rfl,
    C10_missing_recipient_phone_short_circuits (moderate_message none) okSendEnv 1 2 "kill"
      noPhoneSt (Or.inl rfl) rfl⟩

/-- C4 counterexample: a moderate_message call for an already-blocked sender
returns a verdict (the block-check terminal branch) having written zero audit
artifacts, contradicting "no branch of moderate() returns having written zero
artifacts". -/
theorem C4_counterexample :
    (moderate_message none 1 2 "hello" blockedSt).1
      = .ok ⟨false, "User blocked for policy violations", false⟩ ∧
    (moderate_message none 1 2 "hello" blockedSt).2.2 = [] := ⟨rfl, rfl⟩

/-- C4 (amended): whenever moderate_message returns a verdict, either it is
the approved verdict and exactly one audit artifact was written (the
MessageLog 'approved' row), or it is the block-check verdict and zero
artifacts were written; every other branch raises NameError before
returning. -/
theorem C4_returning_branches_artifacts (ai : Option AIEnv) (sender recipient : Nat)
    (message : String) (st : St) (v : Verdict) (st2 : St) (es : List Effect)
    (h : moderate_message ai sender recipient message st = (.ok v, st2, es)) :
    (v.approved = true ∧ es.filter isAuditArtifact
        = [Effect.messageLogInsert sender recipient message none "approved"]) ∨
    (v = ⟨false, "User blocked for policy violations", false⟩ ∧ es = []) := by
  rcases moderate_message_ok ai sender recipient message st v st2 es h with
    ⟨hv, _, hes⟩ | ⟨hv, _, hes⟩
  · exact Or.inr ⟨hv, hes⟩
  · refine Or.inl ⟨by rw [hv], ?_⟩
    rw [hes]
    rfl

/-- C4 witness: the amended theorem applied to a clean approved run. -/
theorem C4_witness :
    ((⟨true, "Message approved", false⟩ : Verdict).approved = true ∧
      ([Effect.messageLogInsert 1 2 "hello" none "approved"] : List Effect).filter isAuditArtifact
        = [Effect.messageLogInsert 1 2 "hello" none "approved"]) ∨
    ((⟨true, "Message approved", false⟩ : Verdict)
        = ⟨false, "User blocked for policy violations", false⟩ ∧
      ([Effect.messageLogInsert 1 2 "hello" none "approved"] : List Effect) = []) :=
  C4_returning_branches_artifacts none 1 2 "hello" (mkSt fun _ => none)
    ⟨true, "Message approved", false⟩ (mkSt fun _ => none)
    [Effect.messageLogInsert 1 2 "hello" none "approved"] rfl

/-- C3 counterexample: a third violation sets the 7-day block flag but the
violation counter is retained at 3 — it is not deleted, contradicting "the
underlying counter is deleted". -/
theorem C3_counterexample :
    (moderate_message none 1 2 "kill" strikeSt).2.1.violationCount 1 = some 3 ∧
    (moderate_message none 1 2 "kill" strikeSt).2.1.blockedTtl 1 = some 604800 := ⟨rfl, rfl⟩

/-- C3 (amended): when a harmful message brings a sender's StrikeCounter from
2 to the threshold 3, the counter is retained at 3 (not deleted) and a Block
flag with 7-day TTL (604800 s) is set; every subsequent moderate_message call
for a sender with an active Block flag returns approved=false with reason
"User blocked for policy violations", leaving the state untouched and writing
nothing — the pattern stages are not reached. -/
theorem C3_strike_threshold_blocks (ai : Option AIEnv) (sender recipient : Nat)
    (message : String) (st : St)
    (hnb : st.blockedTtl sender = none)
    (hcnt : st.violationCount sender = some 2)
    (hharm : (check_harmful_patterns message).isSome = true) :
    ((moderate_message ai sender recipient message st).2.1.violationCount sender = some 3 ∧
     (moderate_message ai sender recipient message st).2.1.blockedTtl sender = some 604800) ∧
    ∀ st2 : St, (st2.blockedTtl sender).isSome = true →
      ∀ ai2 recipient2 message2,
        moderate_message ai2 sender recipient2 message2 st2
          = (.ok ⟨false, "User blocked for policy violations", false⟩, st2, []) := by
  constructor
  · obtain ⟨pat, hp⟩ := Option.isSome_iff_exists.mp hharm
    unfold moderate_message log_violation alert_admin_critical
    rw [if_neg (by simp [is_blocked_user, hnb]), hp]
    dsimp only
    rw [hcnt]
    dsimp only
    rw [if_pos (by omega)]
    constructor
    · simp [St.setBlocked, St.setViolationCount]
    · simp [St.setBlocked, St.setViolationCount]
  · intro st2 hbl ai2 recipient2 message2
    unfold moderate_message
    rw [if_pos (show is_blocked_user st2 sender = true from hbl)]

/-- C3 witness: the amended theorem applied to a sender at two strikes
sending "kill". -/
theorem C3_witness :
    strikeSt.blockedTtl 1 = none ∧ strikeSt.violationCount 1 = some 2 ∧
    (check_harmful_patterns "kill").isSome = true ∧
    ((moderate_message none 1 2 "kill" strikeSt).2.1.violationCount 1 = some 3 ∧
     (moderate_message none 1 2 "kill" strikeSt).2.1.blockedTtl 1 = some 604800) :=
  ⟨rfl, rfl, by decide,
    (C3_strike_threshold_blocks none 1 2 "kill" strikeSt rfl rfl (by decide)).1⟩

/-- C1 (evaluation at the failing input): on harmful text "kill" from a clean
sender, exactly one content_violations row with severity "harmful" is
inserted, and moderate_message then raises NameError (from
`_alert_admin_critical` evaluating the unimported `datetime`) instead of
returning the approved=false verdict the claim describes. -/
theorem C1_harmful_path_raises :
    (moderate_message none 1 2 "kill" (mkSt fun _ => none)).1 = .error .nameError ∧
    (moderate_message none 1 2 "kill" (mkSt fun _ => none)).2.2
      = [.violationInsert 1 2 "kill"
          "Pattern: \\b(kill|murder|harm|hurt|attack|violence)\\b" "harmful"] := ⟨rfl, rfl⟩

/-- C9 (evaluation at the failing input): `_track_cost` raises NameError at
its first statement (the month key evaluates `datetime.now()` with `datetime`
unimported), so a fully successful provider send still produces no
cost-ledger increment, and send_message itself propagates NameError (the
except handler's `_alert_admin_send_failure` hits the same missing
import). -/
theorem C9_cost_ledger_never_incremented :
    track_cost premiumSt = (.error .nameError, premiumSt, []) ∧
    (send_message none okSendEnv 1 2 "hi" premiumSt).1 = .error .nameError ∧
    (send_message none okSendEnv 1 2 "hi" premiumSt).2.2.filter isCostIncrement = [] :=
  ⟨rfl, rfl, rfl⟩

/-- C7 counterexample: with two queued items, resolving positional id "0"
twice is not idempotent: the first resolve approves and sends itemA; the
second resolve with the same id "0" does not report not-found — it acts on
itemB (which shifted into position 0) and sends itemB's message. -/
theorem C7_counterexample :
    (review_message okSendEnv "0" "approve" 9 twoItemSt).1
      = .ok (.approvedAndSent (some "mid")) ∧
    (review_message okSendEnv "0" "approve" 9 twoItemSt).2.1.reviewQueue = [itemB] ∧
    (review_message okSendEnv "0" "approve" 9
        (review_message okSendEnv "0" "approve" 9 twoItemSt).2.1).1
      = .ok (.approvedAndSent (some "mid")) ∧
    Effect.apiSend (some "p") "m2" ∈
      (review_message okSendEnv "0" "approve" 9
        (review_message okSendEnv "0" "approve" 9 twoItemSt).2.1).2.2 :=
  ⟨rfl, rfl, rfl, by decide⟩

/-- C7 (amended): a second resolve with the same positional identifier is a
not-found no-op only when no item remains at that index; in particular, for a
single-item queue, after a successful approve of id "0" a second resolve of
"0" returns 404 not-found, sends nothing and leaves the state unchanged.
With more items queued, the second resolve instead acts on whatever item
shifted into that position (see the counterexample). -/
theorem C7_second_resolve_not_found_when_exhausted (env : SendEnv) (admin1 admin2 : Nat)
    (decision2 : String) (item : ReviewItem) (st : St) (hq : st.reviewQueue = [item])
    (mid : String)
    (hsend : env.sendApi (get_user_whatsapp st item.recipient_id) item.message = some mid) :
    (review_message env "0" "approve" admin1 st).1 = .ok (.approvedAndSent (some mid)) ∧
    (review_message env "0" "approve" admin1 st).2.1.reviewQueue = [] ∧
    review_message env "0" decision2 admin2 (review_message env "0" "approve" admin1 st).2.1
      = (.ok .notFound, (review_message env "0" "approve" admin1 st).2.1, []) := by
  have h1 : review_message env "0" "approve" admin1 st
      = (.ok (.approvedAndSent (some mid)), { st with reviewQueue := [] },
         [.adminReviewInsert item.sender_id item.recipient_id item.message "approve" admin1,
          .apiSend (get_user_whatsapp st item.recipient_id) item.message,
          .pushNotification item.sender_id "Message Approved"]) := by
    unfold review_message
    rw [hq]
    rw [show findIndexed "0" 0 [item] = some item from rfl]
    dsimp only
    have hl : lremOne [item] item = [] := by simp [lremOne]
    rw [hl]
    rw [if_pos rfl]
    rw [get_user_whatsapp_setQueue st [] item.recipient_id, hsend]
  refine ⟨by rw [h1], by rw [h1], ?_⟩
  rw [h1]
  rfl

/-- C7 witness: the amended theorem at a concrete single-item queue. -/
theorem C7_witness :
    oneItemSt.reviewQueue = [itemA] ∧
    okSendEnv.sendApi (get_user_whatsapp oneItemSt itemA.recipient_id) itemA.message
      = some "mid" ∧
    ((review_message okSendEnv "0" "approve" 9 oneItemSt).1
        = .ok (.approvedAndSent (some "mid")) ∧
     (review_message okSendEnv "0" "approve" 9 oneItemSt).2.1.reviewQueue = [] ∧
     review_message okSendEnv "0" "reject" 8
         (review_message okSendEnv "0" "approve" 9 oneItemSt).2.1
       = (.ok .notFound, (review_message okSendEnv "0" "approve" 9 oneItemSt).2.1, [])) :=
  ⟨rfl, rfl,
    C7_second_resolve_not_found_when_exhausted okSendEnv 9 8 "reject" itemA oneItemSt rfl
      "mid" rfl⟩

/-- C8 counterexample: an admin approve resolution on a queued item produces
zero `whatsapp_message_log` rows — no MessageLog entry with status
sent-after-review (or any status) is written by the review path,
contradicting "exactly one MessageLog row with status sent-after-review". -/
theorem C8_counterexample :
    (review_message okSendEnv "0" "approve" 9 oneItemSt).1
      = .ok (.approvedAndSent (some "mid")) ∧
    (review_message okSendEnv "0" "approve" 9 oneItemSt).2.2.filter isMessageLog = [] :=
  ⟨rfl, rfl⟩

/-- C8 (amended): an admin approve resolution on a queued item removes the
item, performs exactly one provider send with the recipient's phone and the
original text, writes exactly one `whatsapp_admin_reviews` decision row, and
sends exactly one approval notification to the original sender — and writes
no MessageLog row (the code has no 'sent-after-review' status). -/
theorem C8_approve_one_review_row_one_notification (env : SendEnv) (review_id : String)
    (admin_id : Nat) (item : ReviewItem) (st : St)
    (hfind : findIndexed review_id 0 st.reviewQueue = some item) (mid : String)
    (hsend : env.sendApi (get_user_whatsapp st item.recipient_id) item.message = some mid) :
    review_message env review_id "approve" admin_id st
      = (.ok (.approvedAndSent (some mid)),
         { st with reviewQueue := lremOne st.reviewQueue item },
         [.adminReviewInsert item.sender_id item.recipient_id item.message "approve" admin_id,
          .apiSend (get_user_whatsapp st item.recipient_id) item.message,
          .pushNotification item.sender_id "Message Approved"]) ∧
    ([Effect.adminReviewInsert item.sender_id item.recipient_id item.message "approve" admin_id,
      .apiSend (get_user_whatsapp st item.recipient_id) item.message,
      .pushNotification item.sender_id "Message Approved"].filter isMessageLog = [] ∧
     [Effect.adminReviewInsert item.sender_id item.recipient_id item.message "approve" admin_id,
      .apiSend (get_user_whatsapp st item.recipient_id) item.message,
      .pushNotification item.sender_id "Message Approved"].filter isPushNote
       = [.pushNotification item.sender_id "Message Approved"] ∧
     [Effect.adminReviewInsert item.sender_id item.recipient_id item.message "approve" admin_id,
      .apiSend (get_user_whatsapp st item.recipient_id) item.message,
      .pushNotification item.sender_id "Message Approved"].filter isAdminReviewRow
       = [.adminReviewInsert item.sender_id item.recipient_id item.message "approve" admin_id]) := by
  refine ⟨?_, rfl, rfl, rfl⟩
  unfold review_message
  rw [hfind]
  dsimp only
  rw [if_pos rfl]
  rw [get_user_whatsapp_setQueue st (lremOne st.reviewQueue item) item.recipient_id, hsend]

/-- C8 witness: the amended theorem at a concrete single-item queue. -/
theorem C8_witness :
    findIndexed "0" 0 oneItemSt.reviewQueue = some itemA ∧
    okSendEnv.sendApi (get_user_whatsapp oneItemSt itemA.recipient_id) itemA.message
      = some "mid" ∧
    (review_message okSendEnv "0" "approve" 9 oneItemSt
      = (.ok (.approvedAndSent (some "mid")),
         { oneItemSt with reviewQueue := lremOne oneItemSt.reviewQueue itemA },
         [.adminReviewInsert itemA.sender_id itemA.recipient_id itemA.message "approve" 9,
          .apiSend (get_user_whatsapp oneItemSt itemA.recipient_id) itemA.message,
          .pushNotification itemA.sender_id "Message Approved"]) ∧
    ([Effect.adminReviewInsert itemA.sender_id itemA.recipient_id itemA.message "approve" 9,
      .apiSend (get_user_whatsapp oneItemSt itemA.recipient_id) itemA.message,
      .pushNotification itemA.sender_id "Message Approved"].filter isMessageLog = [] ∧
     [Effect.adminReviewInsert itemA.sender_id itemA.recipient_id itemA.message "approve" 9,
      .apiSend (get_user_whatsapp oneItemSt itemA.recipient_id) itemA.message,
      .pushNotification itemA.sender_id "Message Approved"].filter isPushNote
       = [.pushNotification itemA.sender_id "Message Approved"] ∧
     [Effect.adminReviewInsert itemA.sender_id itemA.recipient_id itemA.message "approve" 9,
      .apiSend (get_user_whatsapp oneItemSt itemA.recipient_id) itemA.message,
      .pushNotification itemA.sender_id "Message Approved"].filter isAdminReviewRow
       = [.adminReviewInsert itemA.sender_id itemA.recipient_id itemA.message "approve" 9])) :=
  ⟨rfl, rfl,
    C8_approve_one_review_row_one_notification okSendEnv "0" 9 itemA oneItemSt rfl "mid" rfl⟩
